import Mathlib

/-!
Verification development for the `simplified_adaptive_lighting` integration.

The Python sources are shallowly embedded as Lean definitions:

* Python `float` values (brightness factors, the sun-position factor sampled
  by the calculator) are modelled as exact rationals `ℚ`; the trigonometric
  sun-position curve itself is modelled over `ℝ`.
* Python `int()` truncation toward zero is `pyInt`; Python 3 `round()`
  (banker's rounding, ties to even) is `pythonRound`.
* The manager's `self._lights` dict (built from the configuration list,
  keyed by `entity_id`, entity ids distinct) is a `List LightConfig`
  with lookup by entity id.
* Service-call data (a Python dict) is an insertion-ordered association
  list with unique keys; `setKey` models item assignment / `dict.update`
  of a single key.
* `try`/`except` around the settings computation is modelled by threading
  an `Except Unit` valued computation through the interception routine,
  which returns the list of service calls forwarded to the original
  handler (the handler itself is an external collaborator).
-/

/-- Python `int()` applied to a rational: truncation toward zero. -/
def pyInt (q : ℚ) : Int :=
  if 0 ≤ q then ⌊q⌋ else -⌊-q⌋

/-- Python 3 `round()` to an integer: nearest integer, ties to even. -/
def pythonRound (q : ℚ) : Int :=
  if q - ⌊q⌋ < 1/2 then ⌊q⌋
  else if 1/2 < q - ⌊q⌋ then ⌊q⌋ + 1
  else if ⌊q⌋ % 2 = 0 then ⌊q⌋ else ⌊q⌋ + 1

/-- Per-light configuration record (`models.LightConfig`). -/
structure LightConfig where
  entity_id : String
  min_color_temp : Int := 2000
  max_color_temp : Int := 6500
  white_balance_offset : Int := 0
  brightness_factor : ℚ := 1
  enabled : Bool := true
  deriving DecidableEq

/-- The configuration held by `TimeBasedCalculator.__init__`. -/
structure CalculatorConfig where
  min_brightness : Int := 1
  max_brightness : Int := 255
  min_color_temp : Int := 2000
  max_color_temp : Int := 6500
  deriving DecidableEq

/-- State of `AdaptiveLightingManager` relevant to settings computation:
the per-light table `self._lights` and the calculator configuration. -/
structure Manager where
  lights : List LightConfig
  calculator : CalculatorConfig
  deriving DecidableEq

/-- Dict lookup `self._lights[entity_id]` (entity ids are distinct keys). -/
def lookupLight (m : Manager) (entity_id : String) : Option LightConfig :=
  m.lights.find? (fun lc => lc.entity_id = entity_id)

/-- `TimeBasedCalculator.get_brightness_pct`, with the sun-position factor
supplied as the exact rational `factor` (the input time enters that method
only through `_get_sun_position_factor`). -/
def get_brightness_pct (c : CalculatorConfig) (factor : ℚ) : ℚ :=
  let min_pct : ℚ := c.min_brightness / 255
  let max_pct : ℚ := c.max_brightness / 255
  let brightness_pct := min_pct + (max_pct - min_pct) * factor
  max min_pct (min max_pct brightness_pct)

/-- `TimeBasedCalculator.get_brightness_value`. -/
def get_brightness_value (c : CalculatorConfig) (factor : ℚ) : Int :=
  pyInt (get_brightness_pct c factor * 255)

/-- `TimeBasedCalculator.get_color_temp_kelvin`. -/
def get_color_temp_kelvin (c : CalculatorConfig) (factor : ℚ) : Int :=
  let color_temp : ℚ :=
    c.min_color_temp + (c.max_color_temp - c.min_color_temp) * factor
  pyInt (max (c.min_color_temp : ℚ) (min (c.max_color_temp : ℚ) color_temp))

/-- `TimeBasedCalculator.apply_brightness_factor`:
`int(brightness * brightness_factor)` clamped to `[1, 255]`. -/
def apply_brightness_factor (brightness : Int) (brightness_factor : ℚ) : Int :=
  let corrected_brightness := pyInt (brightness * brightness_factor)
  max 1 (min 255 corrected_brightness)

/-- `AdaptiveLightingManager.apply_brightness_correction`. -/
def apply_brightness_correction (m : Manager) (entity_id : String)
    (base_brightness : Int) : Int :=
  match lookupLight m entity_id with
  | none => base_brightness
  | some light_config =>
    let corrected_brightness := pyInt (base_brightness * light_config.brightness_factor)
    max 1 (min 255 corrected_brightness)

/-- `AdaptiveLightingManager.apply_white_balance`; the clamp uses the
calculator's configured colour-temperature range. -/
def apply_white_balance (m : Manager) (entity_id : String)
    (base_color_temp : Int) : Int :=
  match lookupLight m entity_id with
  | none => base_color_temp
  | some light_config =>
    let corrected_temp := base_color_temp + light_config.white_balance_offset
    max m.calculator.min_color_temp (min m.calculator.max_color_temp corrected_temp)

/-- `models.AdaptiveSettings`. -/
structure AdaptiveSettings where
  brightness : Int
  color_temp_kelvin : Int
  transition : Int := 1
  deriving DecidableEq

/-- `AdaptiveLightingManager.calculate_adaptive_settings`, with the
sun-position factor at `current_time` supplied as `factor`. -/
def calculate_adaptive_settings (m : Manager) (entity_id : String)
    (factor : ℚ) : AdaptiveSettings :=
  let base_brightness := get_brightness_value m.calculator factor
  let base_color_temp := get_color_temp_kelvin m.calculator factor
  { brightness := apply_brightness_correction m entity_id base_brightness
    color_temp_kelvin := apply_white_balance m entity_id base_color_temp
    transition := 1 }

/-- Range check on one light performed by
`AdaptiveLightingManager.validate_corrections_consistency`. -/
def lightCorrectionOk (lc : LightConfig) : Bool :=
  decide (-1000 ≤ lc.white_balance_offset ∧ lc.white_balance_offset ≤ 1000) &&
  decide ((1 : ℚ)/10 ≤ lc.brightness_factor ∧ lc.brightness_factor ≤ 2)

/-- `AdaptiveLightingManager.validate_corrections_consistency`, together
with the entity ids for which a warning is logged before the method
returns: the loop returns `False` as soon as one light fails a check. -/
def validateReport : List LightConfig → Bool × List String
  | [] => (true, [])
  | lc :: rest =>
    if ¬ (-1000 ≤ lc.white_balance_offset ∧ lc.white_balance_offset ≤ 1000) then
      (false, [lc.entity_id])
    else if ¬ ((1 : ℚ)/10 ≤ lc.brightness_factor ∧ lc.brightness_factor ≤ 2) then
      (false, [lc.entity_id])
    else validateReport rest

/-- The boolean result of `validate_corrections_consistency`. -/
def validate_corrections_consistency (m : Manager) : Bool :=
  (validateReport m.lights).1

/-- A value stored in service-call data. `none` is Python `None`;
payload shapes outside these cases do not occur in light commands. -/
inductive Value where
  | str : String → Value
  | int : Int → Value
  | strList : List String → Value
  | none : Value
  deriving DecidableEq

/-- Service-call data: a Python dict as an insertion-ordered association
list with unique keys. -/
abbrev ServiceData := List (String × Value)

/-- Dict read `d.get(k)`. -/
def getKey : ServiceData → String → Option Value
  | [], _ => Option.none
  | p :: rest, k => if p.1 = k then some p.2 else getKey rest k

/-- Dict write `d[k] = v`: replaces the value of an existing key in
place, otherwise appends the new key at the end. -/
def setKey : ServiceData → String → Value → ServiceData
  | [], k, v => [(k, v)]
  | p :: rest, k, v => if p.1 = k then (k, v) :: rest else p :: setKey rest k v

/-- Dict update `d.update(u)`: one `setKey` per item of `u`, in order. -/
def dictUpdate (d : ServiceData) (u : ServiceData) : ServiceData :=
  u.foldl (fun acc p => setKey acc p.1 p.2) d

/-- `AdaptiveSettings.to_service_data`. -/
def to_service_data (s : AdaptiveSettings) : ServiceData :=
  [("brightness", Value.int s.brightness),
   ("kelvin", Value.int s.color_temp_kelvin),
   ("transition", Value.int s.transition)]

/-- `homeassistant.core.ServiceCall`, with the opaque context modelled
as an integer token. -/
structure ServiceCall where
  domain : String
  service : String
  data : ServiceData
  context : Int
  deriving DecidableEq

/-- The entity-id normalisation at the top of
`async_intercept_service_call`: `call.data.get("entity_id", [])`, a bare
string becomes a one-element list, `None` becomes the empty list. -/
def entityIdsOf (d : ServiceData) : List String :=
  match getKey d "entity_id" with
  | some (Value.str s) => [s]
  | some (Value.strList l) => l
  | _ => []

/-- `eid in self._lights and self._lights[eid].enabled`. -/
def isAdaptiveTarget (m : Manager) (entity_id : String) : Bool :=
  match lookupLight m entity_id with
  | some lc => lc.enabled
  | Option.none => false

/-- The `adaptive_entities` list comprehension. -/
def adaptiveEntitiesOf (m : Manager) (entity_ids : List String) : List String :=
  entity_ids.filter (isAdaptiveTarget m)

/-- The `non_adaptive_entities` list comprehension of the multi-entity
branch: `[eid for eid in entity_ids if eid not in adaptive_entities]`. -/
def nonAdaptiveOf (m : Manager) (entity_ids : List String) : List String :=
  entity_ids.filter (fun eid => !((adaptiveEntitiesOf m entity_ids).contains eid))

/-- Data of the per-entity adaptive call of the multi-entity branch:
copy the original data, set `entity_id` to the single entity, then
update with the computed settings. -/
def mkAdaptiveData (call : ServiceCall) (entity_id : String)
    (s : AdaptiveSettings) : ServiceData :=
  dictUpdate (setKey call.data "entity_id" (Value.str entity_id)) (to_service_data s)

/-- The loop over `adaptive_entities`, with the per-entity settings
computation `calcE` allowed to raise. Returns the calls forwarded by the
loop and whether it completed without an exception; an exception aborts
the loop but the calls already forwarded stand. -/
def adaptiveLoop (calcE : String → Except Unit AdaptiveSettings)
    (call : ServiceCall) : List String → List ServiceCall × Bool
  | [] => ([], true)
  | eid :: rest =>
    match calcE eid with
    | Except.error _ => ([], false)
    | Except.ok s =>
      ({ call with data := mkAdaptiveData call eid s } :: (adaptiveLoop calcE call rest).1,
       (adaptiveLoop calcE call rest).2)

/-- `AdaptiveLightingManager.async_intercept_service_call`, returning the
list of service calls forwarded to the original handler, in order.
`calcE` stands for `self.calculate_adaptive_settings`, which may raise;
the surrounding `try`/`except` catches any such exception and falls back
to forwarding the original, unmodified call, so the routine itself is
total and never propagates the failure. -/
def async_intercept_service_call (m : Manager)
    (calcE : String → Except Unit AdaptiveSettings)
    (call : ServiceCall) : List ServiceCall :=
  let entity_ids := entityIdsOf call.data
  let adaptive_entities := adaptiveEntitiesOf m entity_ids
  if adaptive_entities = [] then
    [call]
  else if entity_ids.length = 1 ∧ entity_ids.headD "" ∈ adaptive_entities then
    -- single adaptive entity: modify the call data directly
    match calcE (entity_ids.headD "") with
    | Except.ok s =>
      [{ call with data := dictUpdate call.data (to_service_data s) }]
    | Except.error _ => [call]
  else
    -- multiple entities: one pass-through call for the non-adaptive
    -- entities, then one individually computed call per adaptive entity
    let non_adaptive_entities := nonAdaptiveOf m entity_ids
    let passThrough : List ServiceCall :=
      if non_adaptive_entities = [] then []
      else [{ call with
              data := setKey call.data "entity_id" (Value.strList non_adaptive_entities) }]
    let res := adaptiveLoop calcE call adaptive_entities
    passThrough ++ res.1 ++ (if res.2 = true then [] else [call])

/-- `self.calculate_adaptive_settings` when no exception occurs. -/
def calcOk (m : Manager) (factor : ℚ) : String → Except Unit AdaptiveSettings :=
  fun entity_id => Except.ok (calculate_adaptive_settings m entity_id factor)

/-- A timezone-aware Python `datetime`: its calendar date, timezone and
time of day (minutes after midnight), each as an abstract token. -/
structure PyDateTime where
  date : Int
  tz : Int
  minutes : Int
  deriving DecidableEq

/-- The dict returned by `TimeBasedCalculator._get_sun_times`. -/
structure SunTimesDict where
  sunrise : PyDateTime
  sunset : PyDateTime
  noon : PyDateTime
  deriving DecidableEq

/-- `TimeBasedCalculator._get_sun_times`. The astral library call
`sun(location.observer, date=dt.date())` is an external collaborator and
is passed in as an `Except`-valued result; on success each returned time
gets `.replace(tzinfo=dt.tzinfo)`, and on any exception the method falls
back to 06:00 / 18:00 / 12:00 on the input's date in the input's
timezone. The method is total: the failure never propagates. -/
def _get_sun_times (astralResult : Except Unit SunTimesDict)
    (dt : PyDateTime) : SunTimesDict :=
  match astralResult with
  | Except.ok st =>
    { sunrise := { st.sunrise with tz := dt.tz }
      sunset := { st.sunset with tz := dt.tz }
      noon := { st.noon with tz := dt.tz } }
  | Except.error _ =>
    { sunrise := { date := dt.date, tz := dt.tz, minutes := 6 * 60 }
      sunset := { date := dt.date, tz := dt.tz, minutes := 18 * 60 }
      noon := { date := dt.date, tz := dt.tz, minutes := 12 * 60 } }

/-- Sunrise-transition branch of `_get_sun_position_factor`:
`0.5 * (1 - math.cos(progress * math.pi))` with
`progress = (t - sunrise_start) / (2 * transition_duration)`. -/
noncomputable def sunriseTransitionValue (sunrise_start td t : ℝ) : ℝ :=
  0.5 * (1 - Real.cos ((t - sunrise_start) / (2 * td) * Real.pi))

/-- Daytime branch of `_get_sun_position_factor`: a sine curve over
`day_progress = (t - sunrise_end) / (sunset_start - sunrise_end)`, or
`1.0` when the daytime span is degenerate. -/
noncomputable def daytimeValue (sunrise_end sunset_start t : ℝ) : ℝ :=
  if 0 < sunset_start - sunrise_end then
    0.5 + 0.5 * Real.sin (((t - sunrise_end) / (sunset_start - sunrise_end) - 0.5) * Real.pi)
  else 1

/-- Sunset-transition branch of `_get_sun_position_factor`:
`0.5 * (1 + math.cos(progress * math.pi))` with
`progress = (t - sunset_start) / (2 * transition_duration)`. -/
noncomputable def sunsetTransitionValue (sunset_start td t : ℝ) : ℝ :=
  0.5 * (1 + Real.cos ((t - sunset_start) / (2 * td) * Real.pi))

/-- `TimeBasedCalculator._get_sun_position_factor`, with times measured
in seconds on the real line; `sunrise` and `sunset` are the times
returned by `_get_sun_times` for the date of `t`, and the transition
duration is 30 minutes (1800 s). -/
noncomputable def sunPositionFactor (sunrise sunset t : ℝ) : ℝ :=
  let td : ℝ := 1800
  let sunrise_start := sunrise - td
  let sunrise_end := sunrise + td
  let sunset_start := sunset - td
  let sunset_end := sunset + td
  if t < sunrise_start ∨ sunset_end < t then 0
  else if sunrise_start ≤ t ∧ t < sunrise_end then
    sunriseTransitionValue sunrise_start td t
  else if sunrise_end ≤ t ∧ t < sunset_start then
    daytimeValue sunrise_end sunset_start t
  else if sunset_start ≤ t ∧ t ≤ sunset_end then
    sunsetTransitionValue sunset_start td t
  else 0

/-! Concrete configurations and service calls used as test inputs for the
claims below. Defaults follow the source defaults: global brightness range
1..255 and global colour-temperature range 2000..6500 K. -/

/-- A manager with one adaptive light using all default corrections. -/
def M1 : Manager := { lights := [{ entity_id := "light.a" }], calculator := {} }

/-- A `light.turn_on` command that targets the adaptive light `light.a`
and explicitly specifies `brightness=100` and no colour temperature. -/
def callBrightness100 : ServiceCall :=
  { domain := "light", service := "turn_on",
    data := [("entity_id", Value.str "light.a"), ("brightness", Value.int 100)],
    context := 0 }

/-- A light whose configured colour-temperature range `[3000, 6500]` is
narrower than the global range `[2000, 6500]`, with a large negative
white-balance offset. -/
def lcNarrow : LightConfig :=
  { entity_id := "light.a", min_color_temp := 3000, white_balance_offset := -5000 }

/-- A manager whose single light has per-light bounds narrower than the
global calculator bounds. -/
def M3 : Manager := { lights := [lcNarrow], calculator := {} }

/-- Two lights that both violate the recommended correction ranges. -/
def badLights : List LightConfig :=
  [{ entity_id := "light.bad1", white_balance_offset := 2000 },
   { entity_id := "light.bad2", brightness_factor := 5 }]

/-- A manager with two adaptive lights with distinct corrections. -/
def M5 : Manager :=
  { lights := [{ entity_id := "light.a", brightness_factor := 4/5, white_balance_offset := 100 },
               { entity_id := "light.b", brightness_factor := 6/5, white_balance_offset := -50 }],
    calculator := {} }

/-- A `light.turn_on` command with three targets, two adaptive and one
not, and an explicit `transition=5`. -/
def callMixed : ServiceCall :=
  { domain := "light", service := "turn_on",
    data := [("entity_id", Value.strList ["light.a", "light.c", "light.b"]),
             ("transition", Value.int 5)],
    context := 0 }

/-! Helper lemmas about the dict model and the interception loop. -/

theorem getKey_setKey_self (d : ServiceData) (k : String) (v : Value) :
    getKey (setKey d k v) k = some v := by
  induction d with
  | nil => simp [setKey, getKey]
  | cons p rest ih =>
    by_cases h : p.1 = k <;> simp [setKey, getKey, h, ih]

theorem getKey_setKey_ne (d : ServiceData) (k k' : String) (v : Value)
    (h : k' ≠ k) : getKey (setKey d k v) k' = getKey d k' := by
  induction d with
  | nil =>
    simp only [setKey, getKey]
    rw [if_neg (Ne.symm h)]
  | cons p rest ih =>
    simp only [setKey]
    by_cases hp : p.1 = k
    · rw [if_pos hp]
      simp only [getKey]
      rw [if_neg (Ne.symm h), if_neg (hp ▸ Ne.symm h)]
    · rw [if_neg hp]
      simp only [getKey]
      by_cases hp' : p.1 = k'
      · rw [if_pos hp', if_pos hp']
      · rw [if_neg hp', if_neg hp', ih]

theorem adaptiveLoop_calcOk (m : Manager) (factor : ℚ) (call : ServiceCall)
    (l : List String) :
    adaptiveLoop (calcOk m factor) call l =
      (l.map fun eid =>
        { call with data := mkAdaptiveData call eid (calculate_adaptive_settings m eid factor) },
       true) := by
  induction l with
  | nil => rfl
  | cons e rest ih => simp [adaptiveLoop, calcOk, ih]

theorem adaptiveLoop_fails (calcE : String → Except Unit AdaptiveSettings)
    (call : ServiceCall) (l : List String)
    (h : ∃ eid ∈ l, (calcE eid).isOk = false) :
    (adaptiveLoop calcE call l).2 = false := by
  induction l with
  | nil => simp at h
  | cons e rest ih =>
    obtain ⟨e', he', hf⟩ := h
    cases hc : calcE e with
    | error u => simp [adaptiveLoop, hc]
    | ok s =>
      rcases List.mem_cons.mp he' with heq | hmem
      · subst heq
        rw [hc] at hf
        simp [Except.isOk, Except.toBool] at hf
      · simp [adaptiveLoop, hc]
        exact ih ⟨e', hmem, hf⟩

/-- C10: for an entity id not present in the manager's configured-lights
table, `apply_brightness_correction` and `apply_white_balance` return
their input unchanged; no factor, offset, or clamping is applied. -/
theorem c10_unconfigured_passthrough (m : Manager) (entity_id : String)
    (h : lookupLight m entity_id = Option.none) (b t : Int) :
    apply_brightness_correction m entity_id b = b ∧
    apply_white_balance m entity_id t = t := by
  constructor <;> simp [apply_brightness_correction, apply_white_balance, h]

theorem c10_witness :
    lookupLight M1 "light.unknown" = Option.none ∧
    apply_brightness_correction M1 "light.unknown" 999 = 999 ∧
    apply_white_balance M1 "light.unknown" 50000 = 50000 :=
  ⟨rfl,
   (c10_unconfigured_passthrough M1 "light.unknown" rfl 999 50000).1,
   (c10_unconfigured_passthrough M1 "light.unknown" rfl 999 50000).2⟩

/-- C8: when the astronomical computation fails, `_get_sun_times` falls
back to sunrise 06:00, sunset 18:00, noon 12:00 on the input's date in
the input's timezone; moreover for every astral outcome the returned
times carry the input's timezone, and the method is total, so the
failure never reaches the caller of the factor computation. -/
theorem c8_civil_fallback (dt : PyDateTime) :
    _get_sun_times (Except.error ()) dt =
      { sunrise := { date := dt.date, tz := dt.tz, minutes := 6 * 60 }
        sunset := { date := dt.date, tz := dt.tz, minutes := 18 * 60 }
        noon := { date := dt.date, tz := dt.tz, minutes := 12 * 60 } } ∧
    ∀ r : Except Unit SunTimesDict,
      (_get_sun_times r dt).sunrise.tz = dt.tz ∧
      (_get_sun_times r dt).sunset.tz = dt.tz ∧
      (_get_sun_times r dt).noon.tz = dt.tz := by
  refine ⟨rfl, fun r => ?_⟩
  cases r <;> simp [_get_sun_times]

/-- C7 counterexample: the claim states the correction returns
`round(b × f)` clamped to `[1, 255]`; at `b = 3`, `f = 0.5` the code
truncates `1.5` to `1` while Python `round(1.5)` is `2`. -/
theorem c7_counterexample :
    apply_brightness_factor 3 (1/2) = 1 ∧
    max 1 (min 255 (pythonRound ((3 : ℚ) * (1/2)))) = 2 ∧
    apply_brightness_factor 3 (1/2) ≠
      max 1 (min 255 (pythonRound ((3 : ℚ) * (1/2)))) := by
  refine ⟨?_, ?_, ?_⟩ <;>
    norm_num [apply_brightness_factor, pyInt, pythonRound]

/-- C7 amended: `apply_brightness_factor` returns `int(b × f)` — the
product truncated toward zero, i.e. its floor for non-negative inputs —
clamped to `[1, 255]`; the three cited examples hold as stated. -/
theorem c7_amended :
    apply_brightness_factor 5 (1/10) = 1 ∧
    apply_brightness_factor 200 2 = 255 ∧
    apply_brightness_factor 128 1 = 128 ∧
    ∀ (b : Int) (f : ℚ), 0 ≤ b → 0 ≤ f →
      apply_brightness_factor b f = max 1 (min 255 ⌊(b : ℚ) * f⌋) := by
  refine ⟨?_, ?_, ?_, fun b f hb hf => ?_⟩
  · norm_num [apply_brightness_factor, pyInt]
  · norm_num [apply_brightness_factor, pyInt]
  · norm_num [apply_brightness_factor, pyInt]
  · have hbf : (0 : ℚ) ≤ (b : ℚ) * f :=
      mul_nonneg (by exact_mod_cast hb) hf
    simp [apply_brightness_factor, pyInt, hbf]

theorem c7_amended_witness :
    (0 : Int) ≤ 3 ∧ (0 : ℚ) ≤ 1/2 ∧
    apply_brightness_factor 3 (1/2) = max 1 (min 255 ⌊((3 : Int) : ℚ) * (1/2)⌋) :=
  ⟨by norm_num, by norm_num,
   c7_amended.2.2.2 3 (1/2) (by norm_num) (by norm_num)⟩

/-- C4 counterexample: with two lights both violating the recommended
ranges, the validation pass returns a bare boolean and has logged only
the first offending light when it returns, so the result does not
enumerate both offenders. -/
theorem c4_counterexample :
    validateReport badLights = (false, ["light.bad1"]) ∧
    (false, (["light.bad1"] : List String)) ≠ (false, ["light.bad1", "light.bad2"]) := by
  constructor
  · norm_num [validateReport, badLights]
  · simp

/-- C4 amended: the validation pass checks the recommended ranges of all
lights only in the sense that its boolean is the conjunction over the
table; it halts at the first offending light, and the lights it reports
are exactly the first offender (at most one), not every offender. -/
theorem c4_amended (l : List LightConfig) :
    validateReport l =
      (l.all lightCorrectionOk,
       ((l.find? fun lc => !(lightCorrectionOk lc)).map fun lc => lc.entity_id).toList) := by
  induction l with
  | nil => rfl
  | cons lc rest ih =>
    by_cases h1 : (-1000 ≤ lc.white_balance_offset ∧ lc.white_balance_offset ≤ 1000)
    · by_cases h2 : ((1 : ℚ)/10 ≤ lc.brightness_factor ∧ lc.brightness_factor ≤ 2)
      · have hok : lightCorrectionOk lc = true := by
          unfold lightCorrectionOk
          rw [decide_eq_true h1, decide_eq_true h2]
          rfl
        simp only [validateReport]
        rw [if_neg (not_not_intro h1), if_neg (not_not_intro h2), ih,
          List.all_cons, hok, Bool.true_and,
          List.find?_cons_of_neg _ (by simp [hok])]
      · have hok : lightCorrectionOk lc = false := by
          unfold lightCorrectionOk
          rw [decide_eq_false h2, Bool.and_false]
        simp only [validateReport]
        rw [if_neg (not_not_intro h1), if_pos h2,
          List.all_cons, hok, Bool.false_and,
          List.find?_cons_of_pos _ (by simp [hok])]
        rfl
    · have hok : lightCorrectionOk lc = false := by
        unfold lightCorrectionOk
        rw [decide_eq_false h1, Bool.false_and]
      simp only [validateReport]
      rw [if_pos h1,
        List.all_cons, hok, Bool.false_and,
        List.find?_cons_of_pos _ (by simp [hok])]
      rfl

/-- C9: for every sunrise/sunset configuration and every input time, the
sun position factor lies in the closed interval `[0, 1]`. -/
theorem c9_factor_bounded (sunrise sunset t : ℝ) :
    0 ≤ sunPositionFactor sunrise sunset t ∧ sunPositionFactor sunrise sunset t ≤ 1 := by
  dsimp only [sunPositionFactor, sunriseTransitionValue, daytimeValue, sunsetTransitionValue]
  split_ifs with h1 h2 h3 h4 h5
  · constructor <;> norm_num
  · have ha := Real.neg_one_le_cos ((t - (sunrise - 1800)) / (2 * 1800) * Real.pi)
    have hb := Real.cos_le_one ((t - (sunrise - 1800)) / (2 * 1800) * Real.pi)
    constructor <;> linarith
  · have hc := Real.neg_one_le_sin
      (((t - (sunrise + 1800)) / (sunset - 1800 - (sunrise + 1800)) - 0.5) * Real.pi)
    have hd := Real.sin_le_one
      (((t - (sunrise + 1800)) / (sunset - 1800 - (sunrise + 1800)) - 0.5) * Real.pi)
    constructor <;> linarith
  · constructor <;> norm_num
  · have he := Real.neg_one_le_cos ((t - (sunset - 1800)) / (2 * 1800) * Real.pi)
    have hf := Real.cos_le_one ((t - (sunset - 1800)) / (2 * 1800) * Real.pi)
    constructor <;> linarith
  · constructor <;> norm_num

/-- C2: the factor is NOT continuous at the `sunrise_end` boundary. With
sunrise 06:00 and sunset 18:00 (seconds 21600 and 64800 — exactly the
civil fallback times, so reachable for any location), at the boundary
`sunrise_end = 06:30` (23400 s) the sunrise-transition branch assigns
the value 1 while the adjacent daytime branch — which owns the boundary
point — assigns 0: the two adjacent branches disagree by a jump of 1.
This contradicts the code's own docstring ("smooth transitions"), its
inline comment ("Sine curve from 0.5 to 1.0 and back to 0.5"), and its
test suite (`test_sun_position_factor_day` expects a factor above 0.8 at
noon, where this formula yields 0.5). -/
theorem c2_discontinuity_at_sunrise_end :
    sunriseTransitionValue 19800 1800 23400 = 1 ∧
    daytimeValue 23400 63000 23400 = 0 ∧
    sunPositionFactor 21600 64800 23400 = 0 := by
  have hsr : sunriseTransitionValue 19800 1800 23400 = 1 := by
    unfold sunriseTransitionValue
    have h : ((23400 : ℝ) - 19800) / (2 * 1800) * Real.pi = Real.pi := by norm_num
    rw [h, Real.cos_pi]
    norm_num
  have hday : daytimeValue 23400 63000 23400 = 0 := by
    unfold daytimeValue
    rw [if_pos (by norm_num : (0:ℝ) < 63000 - 23400)]
    have h : (((23400 : ℝ) - 23400) / (63000 - 23400) - 0.5) * Real.pi = -(Real.pi / 2) := by
      norm_num
      ring
    rw [h, Real.sin_neg, Real.sin_pi_div_two]
    norm_num
  refine ⟨hsr, hday, ?_⟩
  dsimp only [sunPositionFactor]
  rw [if_neg (by norm_num), if_neg (by norm_num), if_pos (by norm_num)]
  convert hday using 2 <;> norm_num

theorem dictUpdate_settings (d : ServiceData) (s : AdaptiveSettings) :
    dictUpdate d (to_service_data s) =
      setKey (setKey (setKey d "brightness" (Value.int s.brightness))
        "kelvin" (Value.int s.color_temp_kelvin)) "transition" (Value.int s.transition) := rfl

theorem getKey_update_settings_brightness (d : ServiceData) (s : AdaptiveSettings) :
    getKey (dictUpdate d (to_service_data s)) "brightness" = some (Value.int s.brightness) := by
  rw [dictUpdate_settings,
    getKey_setKey_ne _ _ _ _ (by decide),
    getKey_setKey_ne _ _ _ _ (by decide),
    getKey_setKey_self]

theorem getKey_update_settings_kelvin (d : ServiceData) (s : AdaptiveSettings) :
    getKey (dictUpdate d (to_service_data s)) "kelvin" = some (Value.int s.color_temp_kelvin) := by
  rw [dictUpdate_settings,
    getKey_setKey_ne _ _ _ _ (by decide),
    getKey_setKey_self]

theorem getKey_update_settings_transition (d : ServiceData) (s : AdaptiveSettings) :
    getKey (dictUpdate d (to_service_data s)) "transition" = some (Value.int s.transition) := by
  rw [dictUpdate_settings, getKey_setKey_self]

theorem getKey_update_settings_other (d : ServiceData) (s : AdaptiveSettings) (k : String)
    (hb : k ≠ "brightness") (hk : k ≠ "kelvin") (ht : k ≠ "transition") :
    getKey (dictUpdate d (to_service_data s)) k = getKey d k := by
  rw [dictUpdate_settings,
    getKey_setKey_ne _ _ _ _ ht,
    getKey_setKey_ne _ _ _ _ hk,
    getKey_setKey_ne _ _ _ _ hb]

theorem getKey_mkAdaptiveData_entity (call : ServiceCall) (eid : String) (s : AdaptiveSettings) :
    getKey (mkAdaptiveData call eid s) "entity_id" = some (Value.str eid) := by
  unfold mkAdaptiveData
  rw [getKey_update_settings_other _ _ _ (by decide) (by decide) (by decide),
    getKey_setKey_self]

theorem getKey_mkAdaptiveData_other (call : ServiceCall) (eid : String) (s : AdaptiveSettings)
    (k : String) (he : k ≠ "entity_id") (hb : k ≠ "brightness") (hk : k ≠ "kelvin")
    (ht : k ≠ "transition") :
    getKey (mkAdaptiveData call eid s) k = getKey call.data k := by
  unfold mkAdaptiveData
  rw [getKey_update_settings_other _ _ _ hb hk ht, getKey_setKey_ne _ _ _ _ he]

theorem intercept_single (m : Manager) (calcE : String → Except Unit AdaptiveSettings)
    (call : ServiceCall) (eid : String)
    (h1 : entityIdsOf call.data = [eid]) (h2 : isAdaptiveTarget m eid = true)
    (s : AdaptiveSettings) (hc : calcE eid = Except.ok s) :
    async_intercept_service_call m calcE call =
      [{ call with data := dictUpdate call.data (to_service_data s) }] := by
  have ha : adaptiveEntitiesOf m (entityIdsOf call.data) = [eid] := by
    rw [h1]
    simp [adaptiveEntitiesOf, h2]
  dsimp only [async_intercept_service_call]
  rw [ha, h1]
  rw [if_neg (by simp), if_pos ⟨rfl, by simp⟩]
  simp [hc]

theorem intercept_multi (m : Manager) (factor : ℚ) (call : ServiceCall)
    (had : adaptiveEntitiesOf m (entityIdsOf call.data) ≠ [])
    (hna : nonAdaptiveOf m (entityIdsOf call.data) ≠ []) :
    async_intercept_service_call m (calcOk m factor) call =
      { call with data := setKey call.data "entity_id" (Value.strList (nonAdaptiveOf m (entityIdsOf call.data))) }
        :: (adaptiveEntitiesOf m (entityIdsOf call.data)).map
            (fun eid => { call with data := mkAdaptiveData call eid (calculate_adaptive_settings m eid factor) }) := by
  have h2 : ¬((entityIdsOf call.data).length = 1 ∧
      (entityIdsOf call.data).headD "" ∈ adaptiveEntitiesOf m (entityIdsOf call.data)) := by
    rintro ⟨hlen, -⟩
    obtain ⟨e, he⟩ := List.length_eq_one.mp hlen
    by_cases hp : isAdaptiveTarget m e
    · rw [he] at hna
      exact hna (by simp [nonAdaptiveOf, adaptiveEntitiesOf, hp])
    · rw [he] at had
      exact had (by simp [adaptiveEntitiesOf, hp])
  dsimp only [async_intercept_service_call]
  rw [if_neg had, if_neg h2, if_neg hna, adaptiveLoop_calcOk]
  simp

/-- C3 counterexample: the claim says the final colour temperature lies
within the light's configured range. For the light `lcNarrow` with
per-light range `[3000, 6500]` and offset −5000 under global bounds
`[2000, 6500]`, the computed colour temperature at factor 0 is 2000,
below the light's configured minimum of 3000: the clamp uses the global
calculator bounds, not the light's own bounds. -/
theorem c3_counterexample :
    lookupLight M3 "light.a" = some lcNarrow ∧
    (calculate_adaptive_settings M3 "light.a" 0).color_temp_kelvin = 2000 ∧
    (calculate_adaptive_settings M3 "light.a" 0).color_temp_kelvin < lcNarrow.min_color_temp := by
  refine ⟨rfl, ?_, ?_⟩ <;>
    norm_num [calculate_adaptive_settings, apply_white_balance, get_color_temp_kelvin,
      lookupLight, M3, lcNarrow, pyInt]

/-- C3 amended: for every configured light and every white-balance
offset and brightness factor in its record, and every sun-position
factor, the computed settings have brightness within `[1, 255]` and
colour temperature within the MANAGER'S GLOBAL configured range
`[min_color_temp, max_color_temp]` (assuming min ≤ max) — not the
light's per-light range; the clamp is applied after the offset. -/
theorem c3_amended (m : Manager) (entity_id : String) (lc : LightConfig)
    (hlc : lookupLight m entity_id = some lc)
    (hminmax : m.calculator.min_color_temp ≤ m.calculator.max_color_temp)
    (factor : ℚ) :
    1 ≤ (calculate_adaptive_settings m entity_id factor).brightness ∧
    (calculate_adaptive_settings m entity_id factor).brightness ≤ 255 ∧
    m.calculator.min_color_temp ≤ (calculate_adaptive_settings m entity_id factor).color_temp_kelvin ∧
    (calculate_adaptive_settings m entity_id factor).color_temp_kelvin ≤ m.calculator.max_color_temp := by
  simp only [calculate_adaptive_settings, apply_brightness_correction, apply_white_balance, hlc]
  refine ⟨le_max_left _ _, ?_, le_max_left _ _, ?_⟩
  · exact max_le (by norm_num) (min_le_left _ _)
  · exact max_le hminmax (min_le_left _ _)

theorem c3_amended_witness :
    lookupLight M3 "light.a" = some lcNarrow ∧
    M3.calculator.min_color_temp ≤ M3.calculator.max_color_temp ∧
    (1 ≤ (calculate_adaptive_settings M3 "light.a" 0).brightness ∧
     (calculate_adaptive_settings M3 "light.a" 0).brightness ≤ 255 ∧
     M3.calculator.min_color_temp ≤ (calculate_adaptive_settings M3 "light.a" 0).color_temp_kelvin ∧
     (calculate_adaptive_settings M3 "light.a" 0).color_temp_kelvin ≤ M3.calculator.max_color_temp) :=
  ⟨rfl, by norm_num [M3],
   c3_amended M3 "light.a" lcNarrow rfl (by norm_num [M3]) 0⟩

/-- C1 counterexample: a command targeting the adaptive light `light.a`
with explicit `brightness=100` and no colour temperature is forwarded
with brightness 255 — the engine's computed value — not the
caller-specified 100: the interception overwrites explicit values. -/
theorem c1_counterexample :
    (async_intercept_service_call M1 (calcOk M1 1) callBrightness100).map
        (fun c => getKey c.data "brightness") = [some (Value.int 255)] ∧
    ([some (Value.int 255)] : List (Option Value)) ≠ [some (Value.int 100)] := by
  have hb : (calculate_adaptive_settings M1 "light.a" 1).brightness = 255 := by
    norm_num [calculate_adaptive_settings, apply_brightness_correction,
      get_brightness_value, get_brightness_pct, lookupLight, M1, pyInt]
  constructor
  · rw [intercept_single M1 (calcOk M1 1) callBrightness100 "light.a" rfl rfl _ rfl]
    simp only [List.map_cons, List.map_nil, getKey_update_settings_brightness, hb]
  · simp

/-- C1 amended: for an intercepted command with a single adaptive
target, the forwarded call carries the engine's computed brightness,
colour temperature and transition UNCONDITIONALLY — overwriting any
caller-specified brightness or colour temperature — and keeps only the
fields outside brightness/kelvin/transition unchanged. Explicit values
do not win per-field in the interception path; the all-or-nothing skip
exists only in the wrapper light entity, not here. -/
theorem c1_amended (m : Manager) (factor : ℚ) (call : ServiceCall) (eid : String)
    (h1 : entityIdsOf call.data = [eid])
    (h2 : isAdaptiveTarget m eid = true) :
    async_intercept_service_call m (calcOk m factor) call =
      [{ call with data := dictUpdate call.data (to_service_data (calculate_adaptive_settings m eid factor)) }] ∧
    getKey (dictUpdate call.data (to_service_data (calculate_adaptive_settings m eid factor)))
        "brightness" = some (Value.int (calculate_adaptive_settings m eid factor).brightness) ∧
    getKey (dictUpdate call.data (to_service_data (calculate_adaptive_settings m eid factor)))
        "kelvin" = some (Value.int (calculate_adaptive_settings m eid factor).color_temp_kelvin) ∧
    getKey (dictUpdate call.data (to_service_data (calculate_adaptive_settings m eid factor)))
        "transition" = some (Value.int 1) ∧
    ∀ k, k ≠ "brightness" → k ≠ "kelvin" → k ≠ "transition" →
      getKey (dictUpdate call.data (to_service_data (calculate_adaptive_settings m eid factor))) k
        = getKey call.data k :=
  ⟨intercept_single m (calcOk m factor) call eid h1 h2 _ rfl,
   getKey_update_settings_brightness _ _, getKey_update_settings_kelvin _ _,
   getKey_update_settings_transition _ _,
   fun k hb hk ht => getKey_update_settings_other _ _ k hb hk ht⟩

theorem c1_amended_witness :
    entityIdsOf callBrightness100.data = ["light.a"] ∧
    isAdaptiveTarget M1 "light.a" = true ∧
    async_intercept_service_call M1 (calcOk M1 1) callBrightness100 =
      [{ callBrightness100 with
          data := dictUpdate callBrightness100.data (to_service_data (calculate_adaptive_settings M1 "light.a" 1)) }] :=
  ⟨rfl, rfl, (c1_amended M1 1 callBrightness100 "light.a" rfl rfl).1⟩

/-- C5 counterexample: the claim says each per-adaptive call reuses the
command's other fields (among them the transition). For the mixed
command with explicit `transition=5`, the two forwarded adaptive calls
carry transition 1 — the computed value — while only the pass-through
call keeps 5. -/
theorem c5_counterexample :
    (async_intercept_service_call M5 (calcOk M5 1) callMixed).map
        (fun c => getKey c.data "transition")
      = [some (Value.int 5), some (Value.int 1), some (Value.int 1)] ∧
    ([some (Value.int 5), some (Value.int 1), some (Value.int 1)] : List (Option Value))
      ≠ [some (Value.int 5), some (Value.int 5), some (Value.int 5)] := by
  have h1 : adaptiveEntitiesOf M5 (entityIdsOf callMixed.data) ≠ [] := by
    rw [show adaptiveEntitiesOf M5 (entityIdsOf callMixed.data) = ["light.a", "light.b"] from rfl]
    simp
  have h2 : nonAdaptiveOf M5 (entityIdsOf callMixed.data) ≠ [] := by
    rw [show nonAdaptiveOf M5 (entityIdsOf callMixed.data) = ["light.c"] from rfl]
    simp
  constructor
  · rw [intercept_multi M5 1 callMixed h1 h2,
      show adaptiveEntitiesOf M5 (entityIdsOf callMixed.data) = ["light.a", "light.b"] from rfl]
    simp only [List.map_cons, List.map_nil, mkAdaptiveData]
    rw [getKey_update_settings_transition, getKey_update_settings_transition]
    decide
  · simp

/-- C5 amended: a multi-entity command with both adaptive and
non-adaptive targets is split into exactly one pass-through call
carrying all non-adaptive identifiers (all other data fields unchanged)
followed by one individually computed call per adaptive identifier —
never merging two adaptive identifiers — where each adaptive call sets
its single entity id and substitutes the computed brightness, colour
temperature AND transition (1 s, overwriting any caller-specified
transition), keeping every other field of the original command. A
command with exactly one adaptive target follows the in-place
single-entity branch instead of this split. -/
theorem c5_amended (m : Manager) (factor : ℚ) (call : ServiceCall)
    (had : adaptiveEntitiesOf m (entityIdsOf call.data) ≠ [])
    (hna : nonAdaptiveOf m (entityIdsOf call.data) ≠ []) :
    async_intercept_service_call m (calcOk m factor) call =
      { call with data := setKey call.data "entity_id" (Value.strList (nonAdaptiveOf m (entityIdsOf call.data))) }
        :: (adaptiveEntitiesOf m (entityIdsOf call.data)).map
            (fun eid => { call with data := mkAdaptiveData call eid (calculate_adaptive_settings m eid factor) }) ∧
    (∀ k, k ≠ "entity_id" →
      getKey (setKey call.data "entity_id" (Value.strList (nonAdaptiveOf m (entityIdsOf call.data)))) k
        = getKey call.data k) ∧
    (∀ eid,
      getKey (mkAdaptiveData call eid (calculate_adaptive_settings m eid factor)) "entity_id"
          = some (Value.str eid) ∧
      getKey (mkAdaptiveData call eid (calculate_adaptive_settings m eid factor)) "brightness"
          = some (Value.int (calculate_adaptive_settings m eid factor).brightness) ∧
      getKey (mkAdaptiveData call eid (calculate_adaptive_settings m eid factor)) "kelvin"
          = some (Value.int (calculate_adaptive_settings m eid factor).color_temp_kelvin) ∧
      getKey (mkAdaptiveData call eid (calculate_adaptive_settings m eid factor)) "transition"
          = some (Value.int 1) ∧
      ∀ k, k ≠ "entity_id" → k ≠ "brightness" → k ≠ "kelvin" → k ≠ "transition" →
        getKey (mkAdaptiveData call eid (calculate_adaptive_settings m eid factor)) k
          = getKey call.data k) :=
  ⟨intercept_multi m factor call had hna,
   fun _ hk => getKey_setKey_ne _ _ _ _ hk,
   fun _ =>
    ⟨getKey_mkAdaptiveData_entity _ _ _,
     getKey_update_settings_brightness _ _,
     getKey_update_settings_kelvin _ _,
     getKey_update_settings_transition _ _,
     fun k he hb hk ht => getKey_mkAdaptiveData_other _ _ _ k he hb hk ht⟩⟩

theorem c5_amended_witness :
    adaptiveEntitiesOf M5 (entityIdsOf callMixed.data) ≠ [] ∧
    nonAdaptiveOf M5 (entityIdsOf callMixed.data) ≠ [] ∧
    (async_intercept_service_call M5 (calcOk M5 1) callMixed).length
      = 1 + (adaptiveEntitiesOf M5 (entityIdsOf callMixed.data)).length := by
  have h1 : adaptiveEntitiesOf M5 (entityIdsOf callMixed.data) ≠ [] := by
    rw [show adaptiveEntitiesOf M5 (entityIdsOf callMixed.data) = ["light.a", "light.b"] from rfl]
    simp
  have h2 : nonAdaptiveOf M5 (entityIdsOf callMixed.data) ≠ [] := by
    rw [show nonAdaptiveOf M5 (entityIdsOf callMixed.data) = ["light.c"] from rfl]
    simp
  refine ⟨h1, h2, ?_⟩
  rw [(c5_amended M5 1 callMixed h1 h2).1]
  simp [Nat.add_comm]

/-- C6: if the per-entity settings computation raises for one of the
targeted adaptive entities, the original, unmodified command is still
forwarded to the original handler (it appears among the forwarded
calls) instead of being dropped; the interception routine is a total
function, so the exception never propagates to its caller. -/
theorem c6_fallback_on_error (m : Manager)
    (calcE : String → Except Unit AdaptiveSettings) (call : ServiceCall)
    (h : ∃ eid ∈ adaptiveEntitiesOf m (entityIdsOf call.data), (calcE eid).isOk = false) :
    call ∈ async_intercept_service_call m calcE call := by
  obtain ⟨e0, he0, hf0⟩ := h
  have had : adaptiveEntitiesOf m (entityIdsOf call.data) ≠ [] := by
    intro hl
    rw [hl] at he0
    simp at he0
  have hsnd : (adaptiveLoop calcE call (adaptiveEntitiesOf m (entityIdsOf call.data))).2 = false :=
    adaptiveLoop_fails calcE call _ ⟨e0, he0, hf0⟩
  by_cases hb : (entityIdsOf call.data).length = 1 ∧
      (entityIdsOf call.data).headD "" ∈ adaptiveEntitiesOf m (entityIdsOf call.data)
  · obtain ⟨hlen, hmem⟩ := hb
    obtain ⟨e, he⟩ := List.length_eq_one.mp hlen
    have heq : e0 = e := by
      rw [he] at he0
      simp [adaptiveEntitiesOf, List.mem_filter] at he0
      exact he0.1
    have hhead : (entityIdsOf call.data).headD "" = e := by rw [he]; rfl
    cases hc : calcE e with
    | error u =>
      dsimp only [async_intercept_service_call]
      rw [if_neg had, if_pos ⟨hlen, hmem⟩, hhead, hc]
      simp
    | ok s =>
      rw [heq, hc] at hf0
      simp [Except.isOk, Except.toBool] at hf0
  · dsimp only [async_intercept_service_call]
    rw [if_neg had, if_neg hb, hsnd]
    simp

theorem c6_fallback_witness :
    (∃ eid ∈ adaptiveEntitiesOf M1 (entityIdsOf callBrightness100.data),
      ((fun _ : String => (Except.error () : Except Unit AdaptiveSettings)) eid).isOk = false) ∧
    callBrightness100 ∈
      async_intercept_service_call M1 (fun _ => Except.error ()) callBrightness100 :=
  ⟨⟨"light.a", by decide, rfl⟩,
   c6_fallback_on_error M1 (fun _ => Except.error ()) callBrightness100
     ⟨"light.a", by decide, rfl⟩⟩
